import Mathlib

set_option maxRecDepth 100000

/-!
Verification of the PJON v3.0 core (PJON.h) against its specification.

The C++ source is shallowly embedded: machine integers are modelled as
`Nat` with explicit `% 2^w` where overflow matters, the strategy layer
(byte I/O) is modelled as oracles (a `stream` of received uint16 values,
a `response` value for `receive_response`, a `canStart` flag), and the
user callbacks are modelled by recording their invocations in the
result structures.
-/

namespace PJON

/-- Communication mode constant from the source header. -/
def SIMPLEX : Nat := 150

/-- Communication mode constant from the source header. -/
def HALF_DUPLEX : Nat := 151

/-- Protocol symbol ACK = 6. -/
def ACK : Nat := 6

/-- Protocol symbol ACQUIRE_ID = 63. -/
def ACQUIRE_ID : Nat := 63

/-- Protocol symbol BUSY = 666. -/
def BUSY : Nat := 666

/-- Protocol symbol NAK = 21. -/
def NAK : Nat := 21

/-- Reserved address BROADCAST = 0. -/
def BROADCAST : Nat := 0

/-- Reserved address NOT_ASSIGNED = 255. -/
def NOT_ASSIGNED : Nat := 255

/-- Internal constant FAIL = 0x100. -/
def FAIL : Nat := 256

/-- Internal constant TO_BE_SENT = 74. -/
def TO_BE_SENT : Nat := 74

/-- Header bit: 1 = shared, 0 = local. -/
def MODE_BIT : Nat := 1

/-- Header bit: sender info included. -/
def SENDER_INFO_BIT : Nat := 2

/-- Header bit: synchronous acknowledge requested. -/
def ACK_REQUEST_BIT : Nat := 4

/-- Error code CONNECTION_LOST = 101. -/
def CONNECTION_LOST : Nat := 101

/-- Error code PACKETS_BUFFER_FULL = 102. -/
def PACKETS_BUFFER_FULL : Nat := 102

/-- Error code MEMORY_FULL = 103. -/
def MEMORY_FULL : Nat := 103

/-- Error code CONTENT_TOO_LONG = 104. -/
def CONTENT_TOO_LONG : Nat := 104

/-- Error code ID_ACQUISITION_FAIL = 105. -/
def ID_ACQUISITION_FAIL : Nat := 105

/-- Maximum send attempts before CONNECTION_LOST. -/
def MAX_ATTEMPTS : Nat := 125

/-- Packets buffer length (default). -/
def MAX_PACKETS : Nat := 10

/-- Maximum packet length (default). -/
def PACKET_MAX_LENGTH : Nat := 50

/-- Maximum random delay on collision, microseconds. -/
def COLLISION_MAX_DELAY : Nat := 16

/-- Header query macro CONTAINS_MODE_INFO: (t & MODE_BIT) != 0. -/
def CONTAINS_MODE_INFO (t : Nat) : Bool := t &&& MODE_BIT != 0

/-- Header query macro CONTAINS_SENDER_INFO: (t & SENDER_INFO_BIT) != 0. -/
def CONTAINS_SENDER_INFO (t : Nat) : Bool := t &&& SENDER_INFO_BIT != 0

/-- Header query macro CONTAINS_ACK_REQUEST: (t & ACK_REQUEST_BIT) != 0. -/
def CONTAINS_ACK_REQUEST (t : Nat) : Bool := t &&& ACK_REQUEST_BIT != 0

/-- One iteration of the compute_crc_8 loop body:
result = (crc ^ input_byte) & 1; crc >>= 1; if(result) crc ^= 0x8C. -/
def crcRound (input_byte crc : Nat) : Nat :=
  let result := (crc ^^^ input_byte) &&& 1
  let crc2 := crc >>> 1
  if result != 0 then crc2 ^^^ 0x8C else crc2

/-- The compute_crc_8 loop, iterated n times, shifting input_byte right
by one between iterations (only bits 0..7 of input_byte are ever read
when n = 8, so modelling the C char as Nat is exact). -/
def crcBits : Nat → Nat → Nat → Nat
  | 0, _, crc => crc
  | n+1, input_byte, crc => crcBits n (input_byte >>> 1) (crcRound input_byte crc)

/-- Table-less CRC-8 update over one byte, polynomial 0x8C reflected,
mirroring compute_crc_8 in the source. -/
def compute_crc_8 (input_byte crc : Nat) : Nat := crcBits 8 input_byte crc

/-- Running CRC-8 of a byte sequence, initial value 0, no final XOR. -/
def crc8 (bytes : List Nat) : Nat :=
  bytes.foldl (fun c b => compute_crc_8 b c) 0

lemma crcRound_lt (input_byte crc : Nat) (h : crc < 256) :
    crcRound input_byte crc < 256 := by
  unfold crcRound
  dsimp only
  have h2 : crc >>> 1 < 256 := by
    rw [Nat.shiftRight_one]
    omega
  have h256 : (256 : Nat) = 2 ^ 8 := by norm_num
  split
  · rw [h256]
    exact Nat.xor_lt_two_pow (by omega) (by norm_num)
  · exact h2

lemma crcBits_lt : ∀ n input_byte crc, crc < 256 → crcBits n input_byte crc < 256
  | 0, _, _, h => h
  | n+1, input_byte, crc, h =>
    crcBits_lt n (input_byte >>> 1) (crcRound input_byte crc)
      (crcRound_lt input_byte crc h)

lemma compute_crc_8_lt (input_byte crc : Nat) (h : crc < 256) :
    compute_crc_8 input_byte crc < 256 :=
  crcBits_lt 8 input_byte crc h

lemma crc8_lt (bytes : List Nat) : crc8 bytes < 256 := by
  suffices h : ∀ l c, c < 256 → List.foldl (fun c b => compute_crc_8 b c) c l < 256 by
    exact h bytes 0 (by norm_num)
  intro l
  induction l with
  | nil => intro c h; simpa using h
  | cons x xs ih =>
    intro c h
    exact ih (compute_crc_8 x c) (compute_crc_8_lt x c h)

lemma crcBits_self : ∀ n c, c < 2 ^ n → crcBits n c c = 0
  | 0, c, h => by
    have : c = 0 := by simpa using h
    simpa [crcBits] using this
  | n+1, c, h => by
    have hr : crcRound c c = c >>> 1 := by
      unfold crcRound
      simp [Nat.xor_self]
    have hlt : c >>> 1 < 2 ^ n := by
      rw [Nat.shiftRight_one]
      have h2 : 2 ^ (n+1) = 2 * 2 ^ n := by ring
      omega
    show crcBits n (c >>> 1) (crcRound c c) = 0
    rw [hr]
    exact crcBits_self n (c >>> 1) hlt

/-- Folding one further byte into a running CRC, foldl form. -/
lemma crc8_append_single (b : List Nat) (x : Nat) :
    crc8 (b ++ [x]) = compute_crc_8 x (crc8 b) := by
  unfold crc8
  rw [List.foldl_append]
  rfl

/-- C1: for every byte sequence b, extending b with its CRC-8
(polynomial 0x8C reflected, initial value 0, no final XOR, computed
bytewise by compute_crc_8) and folding the whole extended sequence
through the running CRC yields 0. -/
theorem C1_crc_roundtrip (b : List Nat) : crc8 (b ++ [crc8 b]) = 0 := by
  rw [crc8_append_single]
  have h := crc8_lt b
  exact crcBits_self 8 (crc8 b) (by norm_num at h ⊢; exact h)

/-- Metainfo about the last received packet, mirroring struct PacketInfo.
The two bus-id arrays are modelled as functions read at indices 0..3. -/
structure PacketInfo where
  header : Nat
  receiver_id : Nat
  receiver_bus_id : Nat → Nat
  sender_id : Nat
  sender_bus_id : Nat → Nat

/-- The configuration and mutable metadata of one PJON device instance
(the fields of class PJON that the embedded operations read). The
bus_id array is modelled as a function read at indices 0..3. -/
structure Device where
  device_id : Nat
  bus_id : Nat → Nat
  shared : Bool
  router : Bool
  mode : Nat
  acknowledge : Bool
  include_sender_info : Bool
  auto_delete : Bool
  last_packet_info : PacketInfo

/-- Byte-wise equality of two 4-byte bus ids (bus_id_equality). -/
def bus_id_equality (name_one name_two : Nat → Nat) : Bool :=
  (List.range 4).all fun i => name_one i == name_two i

/-- Parse a packet buffer into a PacketInfo (get_packet_info). Fields
not dictated by the header flags keep their previous values, exactly as
the C routine leaves those struct members untouched. -/
def get_packet_info (packet : Nat → Nat) (old : PacketInfo) : PacketInfo :=
  let header := packet 2
  let base := { old with receiver_id := packet 0, header := header }
  if CONTAINS_MODE_INFO header then
    let withRec := { base with receiver_bus_id := fun k => packet (3 + k) }
    if CONTAINS_SENDER_INFO header then
      { withRec with sender_bus_id := fun k => packet (7 + k), sender_id := packet 11 }
    else withRec
  else
    if CONTAINS_SENDER_INFO header then { base with sender_id := packet 3 }
    else base

/-- What one call to receive() does, observably: the uint16 return
value, the symbol passed to Strategy::send_response (if any), the
(payload_offset, length) arguments passed to the receive handler (if
it was invoked), and the value of last_packet_info afterwards. -/
structure RecvOutcome where
  ret : Nat
  response : Option Nat
  handler : Option (Nat × Nat)
  info : PacketInfo

/-- Outcome of the three early returns of receive() that leave every
observable unchanged except the return value FAIL. -/
def failOutcome (dev : Device) : RecvOutcome :=
  ⟨FAIL, none, none, dev.last_packet_info⟩

/-- Outcome of the early returns of receive() with return value BUSY. -/
def busyOutcome (dev : Device) : RecvOutcome :=
  ⟨BUSY, none, none, dev.last_packet_info⟩

/-- Write one byte into the receive scratch buffer (data[i] = v). -/
def bufWrite (data : Nat → Nat) (i v : Nat) : Nat → Nat :=
  fun j => if j = i then v else data j

/-- The tail of receive() after the byte loop: CRC test, conditional
get_packet_info, conditional send_response of ACK or NAK, and the
receive-handler invocation with
(data + payload_offset, data[3] - payload_offset - 1) — the length
argument is reduced mod 256 because the handler takes a uint8_t. -/
def receiveFinish (dev : Device) (crc : Nat) (sh si ar : Bool)
    (data : Nat → Nat) : RecvOutcome :=
  if crc = 0 then
    let info := get_packet_info data dev.last_packet_info
    let resp := if ar = true ∧ data 0 ≠ BROADCAST ∧ dev.mode ≠ SIMPLEX ∧
        (dev.shared = false ∨ (dev.shared = true ∧ sh = true ∧
          bus_id_equality info.receiver_bus_id dev.bus_id = true))
      then some ACK else none
    let payload_offset :=
      3 + (if sh then (if si then 9 else 4) else (if si then 1 else 0))
    ⟨ACK, resp, some (payload_offset, (data 3 + 512 - payload_offset - 1) % 256), info⟩
  else
    let resp := if ar = true ∧ data 0 ≠ BROADCAST ∧ dev.mode ≠ SIMPLEX ∧
        (dev.shared = false ∨ (dev.shared = true ∧ sh = true ∧
          bus_id_equality dev.last_packet_info.receiver_bus_id dev.bus_id = true))
      then some NAK else none
    ⟨NAK, resp, none, dev.last_packet_info⟩

/-- The byte loop of receive(). Arguments track the loop state: fuel
(an upper bound on remaining iterations, PACKET_MAX_LENGTH at entry,
never exhausted because packet_length ≤ PACKET_MAX_LENGTH throughout),
loop index i, packet_length, the running CRC, the three header flags,
and the scratch buffer. stream i is the value the i-th call of
Strategy::receive_byte returns. -/
def receiveAux (dev : Device) (stream : Nat → Nat) :
    Nat → Nat → Nat → Nat → Bool → Bool → Bool → (Nat → Nat) → RecvOutcome
  | 0, _, _, _, _, _, _, _ => failOutcome dev
  | fuel+1, i, pl, crc, sh, si, ar, data =>
    if i < pl then
      let st := stream i
      let data2 := bufWrite data i st
      if st = FAIL then failOutcome dev
      else if i = 0 ∧ st ≠ dev.device_id ∧ st ≠ BROADCAST ∧ dev.router = false then
        busyOutcome dev
      else if i = 1 ∧ ¬(4 < st ∧ st < PACKET_MAX_LENGTH) then
        failOutcome dev
      else
        let pl2 := if i = 1 then st else pl
        let sh2 := if i = 2 then CONTAINS_MODE_INFO st else sh
        let si2 := if i = 2 then CONTAINS_SENDER_INFO st else si
        let ar2 := if i = 2 then CONTAINS_ACK_REQUEST st else ar
        if i = 2 ∧ sh2 ≠ dev.shared ∧ dev.router = false then
          busyOutcome dev
        else if dev.shared = true ∧ sh2 = true ∧ dev.router = false ∧
            2 < i ∧ i < 7 ∧ dev.bus_id (i - 3) ≠ st then
          busyOutcome dev
        else
          receiveAux dev stream fuel (i+1) pl2 (compute_crc_8 st crc) sh2 si2 ar2 data2
    else
      receiveFinish dev crc sh si ar data

/-- Try to receive a packet (receive()). data0 is the current content
of the device's scratch buffer data[] before the call. -/
def receive (dev : Device) (stream : Nat → Nat) (data0 : Nat → Nat) : RecvOutcome :=
  receiveAux dev stream PACKET_MAX_LENGTH 0 PACKET_MAX_LENGTH 0 false false false data0

/-- Running CRC of the n bytes stream i, stream (i+1), ..., folded onto crc. -/
def crcRange (stream : Nat → Nat) : Nat → Nat → Nat → Nat
  | _, 0, crc => crc
  | i, n+1, crc => crcRange stream (i+1) n (compute_crc_8 (stream i) crc)

/-- Rolling CRC of a whole frame as receive() computes it: the first
stream 1 bytes of the stream, starting from 0. -/
def frameCRC (stream : Nat → Nat) : Nat := crcRange stream 0 (stream 1) 0

/-- The scratch buffer after writing stream j at every j in [i, i+n). -/
def writeBytes (stream data : Nat → Nat) (i n : Nat) : Nat → Nat :=
  fun j => if i ≤ j ∧ j < i + n then stream j else data j

lemma writeBytes_zero (stream data : Nat → Nat) (i : Nat) :
    writeBytes stream data i 0 = data := by
  funext j
  simp only [writeBytes]
  rw [if_neg (by omega)]

lemma writeBytes_update (stream data : Nat → Nat) (i n : Nat) :
    writeBytes stream (bufWrite data i (stream i)) (i+1) n =
    writeBytes stream data i (n+1) := by
  funext j
  simp only [writeBytes, bufWrite]
  by_cases h1 : i + 1 ≤ j ∧ j < i + 1 + n
  · rw [if_pos h1, if_pos (by omega)]
  · rw [if_neg h1]
    by_cases h2 : j = i
    · subst h2
      rw [if_pos rfl, if_pos (by omega)]
    · rw [if_neg h2, if_neg (by omega)]

lemma crcRange_split3 (stream : Nat → Nat) (n crc : Nat) :
    crcRange stream 0 (n + 3) crc =
    crcRange stream 3 n
      (compute_crc_8 (stream 2) (compute_crc_8 (stream 1) (compute_crc_8 (stream 0) crc))) :=
  rfl

/-- One loop iteration of receive() that neither exits nor fails. -/
lemma step_advance (dev : Device) (stream : Nat → Nat)
    (fuel i pl crc : Nat) (sh si ar : Bool) (data : Nat → Nat)
    (hlt : i < pl)
    (hv : ¬(stream i = FAIL))
    (h0 : ¬(i = 0 ∧ stream i ≠ dev.device_id ∧ stream i ≠ BROADCAST ∧ dev.router = false))
    (h1 : ¬(i = 1 ∧ ¬(4 < stream i ∧ stream i < PACKET_MAX_LENGTH)))
    (h2 : ¬(i = 2 ∧ (if i = 2 then CONTAINS_MODE_INFO (stream i) else sh) ≠ dev.shared ∧
      dev.router = false))
    (h3 : ¬(dev.shared = true ∧ (if i = 2 then CONTAINS_MODE_INFO (stream i) else sh) = true ∧
      dev.router = false ∧ 2 < i ∧ i < 7 ∧ dev.bus_id (i - 3) ≠ stream i)) :
    receiveAux dev stream (fuel+1) i pl crc sh si ar data =
      receiveAux dev stream fuel (i+1)
        (if i = 1 then stream i else pl)
        (compute_crc_8 (stream i) crc)
        (if i = 2 then CONTAINS_MODE_INFO (stream i) else sh)
        (if i = 2 then CONTAINS_SENDER_INFO (stream i) else si)
        (if i = 2 then CONTAINS_ACK_REQUEST (stream i) else ar)
        (bufWrite data i (stream i)) := by
  simp only [receiveAux]
  rw [if_pos hlt, if_neg hv, if_neg h0, if_neg h1, if_neg h2, if_neg h3]

/-- The loop iteration of receive() in which Strategy::receive_byte fails. -/
lemma step_fail (dev : Device) (stream : Nat → Nat)
    (fuel i pl crc : Nat) (sh si ar : Bool) (data : Nat → Nat)
    (hlt : i < pl) (hv : stream i = FAIL) :
    receiveAux dev stream (fuel+1) i pl crc sh si ar data = failOutcome dev := by
  simp only [receiveAux]
  rw [if_pos hlt, if_pos hv]

/-- The i = 0 iteration of receive() when the recipient id matches
neither this device nor BROADCAST on a non-router device. -/
lemma step_busy0 (dev : Device) (stream : Nat → Nat)
    (fuel pl crc : Nat) (sh si ar : Bool) (data : Nat → Nat)
    (hlt : 0 < pl) (hv : ¬(stream 0 = FAIL))
    (ha : stream 0 ≠ dev.device_id) (hb : stream 0 ≠ BROADCAST) (hr : dev.router = false) :
    receiveAux dev stream (fuel+1) 0 pl crc sh si ar data = busyOutcome dev := by
  simp only [receiveAux]
  rw [if_pos hlt, if_neg hv, if_pos ⟨by trivial, ha, hb, hr⟩]

/-- The i = 2 iteration of receive() when the frame's shared bit
differs from the device's shared flag on a non-router device. -/
lemma step_busy2 (dev : Device) (stream : Nat → Nat)
    (fuel pl crc : Nat) (sh si ar : Bool) (data : Nat → Nat)
    (hlt : 2 < pl) (hv : ¬(stream 2 = FAIL))
    (hm : CONTAINS_MODE_INFO (stream 2) ≠ dev.shared) (hr : dev.router = false) :
    receiveAux dev stream (fuel+1) 2 pl crc sh si ar data = busyOutcome dev := by
  simp only [receiveAux]
  rw [if_pos hlt, if_neg hv, if_neg (fun h => absurd h.1 (by decide)),
    if_neg (fun h => absurd h.1 (by decide)),
    if_pos ⟨by trivial, by simpa using hm, hr⟩]

/-- An i ∈ [3,7) iteration of receive() at which the frame's recipient
bus id differs from the device's (shared device, shared frame,
non-router). -/
lemma step_busy_bus (dev : Device) (stream : Nat → Nat)
    (fuel i pl crc : Nat) (sh si ar : Bool) (data : Nat → Nat)
    (hlt : i < pl) (hv : ¬(stream i = FAIL)) (h3i : 3 ≤ i) (hi7 : i < 7)
    (hsh : dev.shared = true) (hshf : sh = true) (hr : dev.router = false)
    (hm : dev.bus_id (i - 3) ≠ stream i) :
    receiveAux dev stream (fuel+1) i pl crc sh si ar data = busyOutcome dev := by
  simp only [receiveAux]
  rw [if_pos hlt, if_neg hv,
    if_neg (fun h => absurd h.1 (by omega : ¬ i = 0)),
    if_neg (fun h => absurd h.1 (by omega : ¬ i = 1)),
    if_neg (fun h => absurd h.1 (by omega : ¬ i = 2))]
  rw [if_pos]
  refine ⟨hsh, ?_, hr, by omega, hi7, hm⟩
  rw [if_neg (by omega : ¬ i = 2)]
  exact hshf

/-- The exit of the receive() byte loop. -/
lemma step_finish (dev : Device) (stream : Nat → Nat)
    (fuel i pl crc : Nat) (sh si ar : Bool) (data : Nat → Nat)
    (hge : ¬(i < pl)) :
    receiveAux dev stream (fuel+1) i pl crc sh si ar data =
      receiveFinish dev crc sh si ar data := by
  simp only [receiveAux]
  rw [if_neg hge]

/-- Running the receive() loop from index i ≥ 3 to the end of the
frame, when no byte fails and no bus-id check trips. -/
lemma receiveAux_run (dev : Device) (stream : Nat → Nat) :
    ∀ n fuel i crc data, n + 1 ≤ fuel → 3 ≤ i →
    ∀ sh si ar : Bool,
    (∀ k, i ≤ k → k < i + n → ¬(stream k = FAIL)) →
    (∀ k, i ≤ k → k < i + n →
      ¬(dev.shared = true ∧ sh = true ∧ dev.router = false ∧
        2 < k ∧ k < 7 ∧ dev.bus_id (k - 3) ≠ stream k)) →
    receiveAux dev stream fuel i (i + n) crc sh si ar data =
      receiveFinish dev (crcRange stream i n crc) sh si ar (writeBytes stream data i n) := by
  intro n
  induction n with
  | zero =>
    intro fuel i crc data hfuel h3 sh si ar hv hb
    obtain ⟨f, rfl⟩ : ∃ f, fuel = f + 1 := ⟨fuel - 1, by omega⟩
    rw [step_finish dev stream f i (i + 0) crc sh si ar data (by omega)]
    rw [writeBytes_zero]
    rfl
  | succ m ih =>
    intro fuel i crc data hfuel h3 sh si ar hv hb
    obtain ⟨f, rfl⟩ : ∃ f, fuel = f + 1 := ⟨fuel - 1, by omega⟩
    rw [step_advance dev stream f i (i + (m+1)) crc sh si ar data
      (by omega) (hv i (by omega) (by omega))
      (fun h => absurd h.1 (by omega : ¬ i = 0))
      (fun h => absurd h.1 (by omega : ¬ i = 1))
      (fun h => absurd h.1 (by omega : ¬ i = 2))
      (by
        have := hb i (by omega) (by omega)
        rw [if_neg (by omega : ¬ i = 2)]
        exact this)]
    rw [if_neg (by omega : ¬ i = 1), if_neg (by omega : ¬ i = 2),
      if_neg (by omega : ¬ i = 2), if_neg (by omega : ¬ i = 2)]
    have hpl : i + (m + 1) = (i + 1) + m := by omega
    rw [hpl]
    rw [ih f (i+1) (compute_crc_8 (stream i) crc) (bufWrite data i (stream i))
      (by omega) (by omega) sh si ar
      (fun k hk1 hk2 => hv k (by omega) (by omega))
      (fun k hk1 hk2 => hb k (by omega) (by omega))]
    rw [writeBytes_update]
    rfl

lemma writeBytes_entry (stream data0 : Nat → Nat) (pl : Nat) (h : 3 ≤ pl) :
    writeBytes stream
      (bufWrite (bufWrite (bufWrite data0 0 (stream 0)) 1 (stream 1)) 2 (stream 2))
      3 (pl - 3) =
    writeBytes stream data0 0 pl := by
  funext j
  simp only [writeBytes, bufWrite]
  by_cases h3 : 3 ≤ j ∧ j < 3 + (pl - 3)
  · rw [if_pos h3, if_pos (by omega)]
  · rw [if_neg h3]
    by_cases hj2 : j = 2
    · subst hj2
      rw [if_pos rfl, if_pos (by omega)]
    · rw [if_neg hj2]
      by_cases hj1 : j = 1
      · subst hj1
        rw [if_pos rfl, if_pos (by omega)]
      · rw [if_neg hj1]
        by_cases hj0 : j = 0
        · subst hj0
          rw [if_pos rfl, if_pos (by omega)]
        · rw [if_neg hj0, if_neg (by omega)]

/-- The first two iterations of the receive() loop, when the
recipient-id filter passes and the length byte is in range. -/
lemma receive_two_steps (dev : Device) (stream data0 : Nat → Nat)
    (h0v : ¬(stream 0 = FAIL))
    (h0 : ¬(stream 0 ≠ dev.device_id ∧ stream 0 ≠ BROADCAST ∧ dev.router = false))
    (h1 : 4 < stream 1 ∧ stream 1 < PACKET_MAX_LENGTH) :
    receive dev stream data0 =
      receiveAux dev stream 48 2 (stream 1)
        (compute_crc_8 (stream 1) (compute_crc_8 (stream 0) 0)) false false false
        (bufWrite (bufWrite data0 0 (stream 0)) 1 (stream 1)) := by
  have h1n : 4 < stream 1 ∧ stream 1 < 50 := by
    simpa [PACKET_MAX_LENGTH] using h1
  have e0 : receive dev stream data0 =
      receiveAux dev stream 49 1 50 (compute_crc_8 (stream 0) 0) false false false
        (bufWrite data0 0 (stream 0)) :=
    step_advance dev stream 49 0 50 0 false false false data0 (by decide) h0v
      (fun h => h0 h.2) (fun h => absurd h.1 (by decide))
      (fun h => absurd h.1 (by decide)) (fun h => absurd h.2.2.2.1 (by decide))
  have e1 : receiveAux dev stream 49 1 50 (compute_crc_8 (stream 0) 0) false false false
        (bufWrite data0 0 (stream 0)) =
      receiveAux dev stream 48 2 (stream 1)
        (compute_crc_8 (stream 1) (compute_crc_8 (stream 0) 0)) false false false
        (bufWrite (bufWrite data0 0 (stream 0)) 1 (stream 1)) :=
    step_advance dev stream 48 1 50 (compute_crc_8 (stream 0) 0) false false false
      (bufWrite data0 0 (stream 0)) (by decide)
      (by simp only [FAIL]; omega)
      (fun h => absurd h.1 (by decide)) (fun h => h.2 h1)
      (fun h => absurd h.1 (by decide)) (fun h => absurd h.2.2.2.1 (by decide))
  rw [e0, e1]

/-- Characterization of one receive() call that consumes a whole frame:
no byte read fails, the recipient-id, length, shared-bit and bus-id
filters all pass, so the call reaches the CRC test with the rolling CRC
of the first stream 1 bytes, the three header flags of byte 2, and the
scratch buffer overwritten with the frame. -/
lemma receive_consumes (dev : Device) (stream data0 : Nat → Nat)
    (h0v : ¬(stream 0 = FAIL))
    (h0 : ¬(stream 0 ≠ dev.device_id ∧ stream 0 ≠ BROADCAST ∧ dev.router = false))
    (h1 : 4 < stream 1 ∧ stream 1 < PACKET_MAX_LENGTH)
    (h2v : ¬(stream 2 = FAIL))
    (h2 : ¬(CONTAINS_MODE_INFO (stream 2) ≠ dev.shared ∧ dev.router = false))
    (h3v : ∀ k, 3 ≤ k → k < stream 1 → ¬(stream k = FAIL))
    (h3 : ∀ k, 3 ≤ k → k < stream 1 →
      ¬(dev.shared = true ∧ CONTAINS_MODE_INFO (stream 2) = true ∧ dev.router = false ∧
        2 < k ∧ k < 7 ∧ dev.bus_id (k - 3) ≠ stream k)) :
    receive dev stream data0 =
      receiveFinish dev (frameCRC stream)
        (CONTAINS_MODE_INFO (stream 2)) (CONTAINS_SENDER_INFO (stream 2))
        (CONTAINS_ACK_REQUEST (stream 2))
        (writeBytes stream data0 0 (stream 1)) := by
  have h1n : 4 < stream 1 ∧ stream 1 < 50 := by
    simpa [PACKET_MAX_LENGTH] using h1
  have e2 : receiveAux dev stream 48 2 (stream 1)
        (compute_crc_8 (stream 1) (compute_crc_8 (stream 0) 0)) false false false
        (bufWrite (bufWrite data0 0 (stream 0)) 1 (stream 1)) =
      receiveAux dev stream 47 3 (stream 1)
        (compute_crc_8 (stream 2)
          (compute_crc_8 (stream 1) (compute_crc_8 (stream 0) 0)))
        (CONTAINS_MODE_INFO (stream 2)) (CONTAINS_SENDER_INFO (stream 2))
        (CONTAINS_ACK_REQUEST (stream 2))
        (bufWrite (bufWrite (bufWrite data0 0 (stream 0)) 1 (stream 1)) 2 (stream 2)) :=
    step_advance dev stream 47 2 (stream 1)
      (compute_crc_8 (stream 1) (compute_crc_8 (stream 0) 0)) false false false
      (bufWrite (bufWrite data0 0 (stream 0)) 1 (stream 1)) (by omega) h2v
      (fun h => absurd h.1 (by decide)) (fun h => absurd h.1 (by decide))
      (fun h => h2 (by simpa using h.2))
      (fun h => absurd h.2.2.2.1 (by decide))
  have hrun := receiveAux_run dev stream (stream 1 - 3) 47 3
    (compute_crc_8 (stream 2) (compute_crc_8 (stream 1) (compute_crc_8 (stream 0) 0)))
    (bufWrite (bufWrite (bufWrite data0 0 (stream 0)) 1 (stream 1)) 2 (stream 2))
    (by omega) (by omega)
    (CONTAINS_MODE_INFO (stream 2)) (CONTAINS_SENDER_INFO (stream 2))
    (CONTAINS_ACK_REQUEST (stream 2))
    (fun k hk1 hk2 => h3v k hk1 (by omega))
    (fun k hk1 hk2 => h3 k hk1 (by omega))
  have hpl : 3 + (stream 1 - 3) = stream 1 := by omega
  rw [hpl] at hrun
  have hcrc : frameCRC stream = crcRange stream 3 (stream 1 - 3)
      (compute_crc_8 (stream 2) (compute_crc_8 (stream 1) (compute_crc_8 (stream 0) 0))) := by
    unfold frameCRC
    have hs : stream 1 = (stream 1 - 3) + 3 := by omega
    conv_lhs => rw [hs]
    exact crcRange_split3 stream (stream 1 - 3) 0
  rw [receive_two_steps dev stream data0 h0v h0 h1, e2, hrun,
    writeBytes_entry stream data0 (stream 1) (by omega), hcrc]

lemma mode_info_ne_fail {t : Nat} (h : CONTAINS_MODE_INFO t = true) : ¬(t = FAIL) :=
  fun he => by
    rw [he] at h
    exact absurd h (by decide)

/-- On a shared non-router device receiving a shared frame, if any of
the bytes at indices [i, 7) within the frame differs from the device's
bus id, the receive() loop exits with BUSY. -/
lemma receiveAux_bus_mismatch (dev : Device) (stream : Nat → Nat) (si ar : Bool)
    (hsh : dev.shared = true) (hr : dev.router = false) :
    ∀ fuel i pl crc data, 7 - i ≤ fuel → 3 ≤ i → i < 7 →
    (∀ k, 3 ≤ k → k < 7 → k < pl → ¬(stream k = FAIL)) →
    (∃ j, i ≤ j ∧ j < 7 ∧ j < pl ∧ stream j ≠ dev.bus_id (j - 3)) →
    receiveAux dev stream fuel i pl crc true si ar data = busyOutcome dev := by
  intro fuel
  induction fuel with
  | zero =>
    intro i pl crc data hf h3 h7 hFv hex
    omega
  | succ f ih =>
    intro i pl crc data hf h3 h7 hFv hex
    obtain ⟨j, hji, hj7, hjpl, hjm⟩ := hex
    have hipl : i < pl := by omega
    by_cases m : dev.bus_id (i - 3) = stream i
    · have hij : j ≠ i := fun e => hjm (by rw [e]; exact m.symm)
      rw [step_advance dev stream f i pl crc true si ar data hipl
        (hFv i (by omega) (by omega) (by omega))
        (fun h => absurd h.1 (by omega : ¬ i = 0))
        (fun h => absurd h.1 (by omega : ¬ i = 1))
        (fun h => absurd h.1 (by omega : ¬ i = 2))
        (fun h => h.2.2.2.2.2 m)]
      rw [if_neg (by omega : ¬ i = 1), if_neg (by omega : ¬ i = 2),
        if_neg (by omega : ¬ i = 2), if_neg (by omega : ¬ i = 2)]
      exact ih (i+1) pl (compute_crc_8 (stream i) crc) (bufWrite data i (stream i))
        (by omega) (by omega) (by omega) hFv
        ⟨j, by omega, hj7, hjpl, hjm⟩
    · exact step_busy_bus dev stream f i pl crc true si ar data hipl
        (hFv i (by omega) (by omega) (by omega)) h3 h7 hsh rfl hr
        (fun e => m e)

/-- C4: for every inbound frame read by receive() on a non-router
device, the result is BUSY when the frame's recipient id (byte 0)
equals neither this device's id nor BROADCAST; BUSY when the frame's
shared header bit differs from the device's shared flag; and, when
both device and frame are shared, BUSY when any byte of the frame's
recipient bus id (bytes 3..6) differs from the device's bus id. -/
theorem C4_receive_address_filter (dev : Device) (stream data0 : Nat → Nat)
    (hr : dev.router = false) (hid : dev.device_id < 256) :
    ((stream 0 < 256 ∧ stream 0 ≠ dev.device_id ∧ stream 0 ≠ BROADCAST) →
      (receive dev stream data0).ret = BUSY) ∧
    (((stream 0 = dev.device_id ∨ stream 0 = BROADCAST) ∧
      4 < stream 1 ∧ stream 1 < PACKET_MAX_LENGTH ∧ stream 2 < 256 ∧
      CONTAINS_MODE_INFO (stream 2) ≠ dev.shared) →
      (receive dev stream data0).ret = BUSY) ∧
    ((dev.shared = true ∧ (stream 0 = dev.device_id ∨ stream 0 = BROADCAST) ∧
      4 < stream 1 ∧ stream 1 < PACKET_MAX_LENGTH ∧
      CONTAINS_MODE_INFO (stream 2) = true ∧
      (∀ k, 3 ≤ k → k < 7 → k < stream 1 → ¬(stream k = FAIL)) ∧
      (∃ j, 3 ≤ j ∧ j < 7 ∧ j < stream 1 ∧ stream j ≠ dev.bus_id (j - 3))) →
      (receive dev stream data0).ret = BUSY) := by
  refine ⟨?_, ?_, ?_⟩
  · rintro ⟨ha, hb, hc⟩
    have e : receive dev stream data0 = busyOutcome dev :=
      step_busy0 dev stream 49 50 0 false false false data0 (by decide)
        (by simp only [FAIL]; omega) hb hc hr
    rw [e]
    rfl
  · rintro ⟨ha, h1a, h1b, h2v, hm⟩
    have h0v : ¬(stream 0 = FAIL) := by
      rcases ha with h | h <;> simp only [FAIL, BROADCAST] at * <;> omega
    have hpass : ¬(stream 0 ≠ dev.device_id ∧ stream 0 ≠ BROADCAST ∧ dev.router = false) :=
      fun h => ha.elim (fun x => h.1 x) (fun x => h.2.1 x)
    rw [receive_two_steps dev stream data0 h0v hpass ⟨h1a, h1b⟩]
    have h1n : stream 1 < 50 := by simpa [PACKET_MAX_LENGTH] using h1b
    have e : receiveAux dev stream 48 2 (stream 1)
        (compute_crc_8 (stream 1) (compute_crc_8 (stream 0) 0)) false false false
        (bufWrite (bufWrite data0 0 (stream 0)) 1 (stream 1)) = busyOutcome dev :=
      step_busy2 dev stream 47 (stream 1)
        (compute_crc_8 (stream 1) (compute_crc_8 (stream 0) 0)) false false false
        (bufWrite (bufWrite data0 0 (stream 0)) 1 (stream 1)) (by omega)
        (by simp only [FAIL]; omega) hm hr
    rw [e]
    rfl
  · rintro ⟨hsh, ha, h1a, h1b, hmode, hFv, j, hj3, hj7, hjpl, hjm⟩
    have h0v : ¬(stream 0 = FAIL) := by
      rcases ha with h | h <;> simp only [FAIL, BROADCAST] at * <;> omega
    have hpass : ¬(stream 0 ≠ dev.device_id ∧ stream 0 ≠ BROADCAST ∧ dev.router = false) :=
      fun h => ha.elim (fun x => h.1 x) (fun x => h.2.1 x)
    rw [receive_two_steps dev stream data0 h0v hpass ⟨h1a, h1b⟩]
    have e2 : receiveAux dev stream 48 2 (stream 1)
        (compute_crc_8 (stream 1) (compute_crc_8 (stream 0) 0)) false false false
        (bufWrite (bufWrite data0 0 (stream 0)) 1 (stream 1)) =
      receiveAux dev stream 47 3 (stream 1)
        (compute_crc_8 (stream 2)
          (compute_crc_8 (stream 1) (compute_crc_8 (stream 0) 0)))
        (CONTAINS_MODE_INFO (stream 2)) (CONTAINS_SENDER_INFO (stream 2))
        (CONTAINS_ACK_REQUEST (stream 2))
        (bufWrite (bufWrite (bufWrite data0 0 (stream 0)) 1 (stream 1)) 2 (stream 2)) :=
      step_advance dev stream 47 2 (stream 1)
        (compute_crc_8 (stream 1) (compute_crc_8 (stream 0) 0)) false false false
        (bufWrite (bufWrite data0 0 (stream 0)) 1 (stream 1)) (by omega)
        (mode_info_ne_fail hmode)
        (fun h => absurd h.1 (by decide)) (fun h => absurd h.1 (by decide))
        (fun h => h.2.1 (by simpa [hsh] using hmode))
        (fun h => absurd h.2.2.2.1 (by decide))
    rw [e2]
    have e3 : receiveAux dev stream 47 3 (stream 1)
        (compute_crc_8 (stream 2)
          (compute_crc_8 (stream 1) (compute_crc_8 (stream 0) 0)))
        (CONTAINS_MODE_INFO (stream 2)) (CONTAINS_SENDER_INFO (stream 2))
        (CONTAINS_ACK_REQUEST (stream 2))
        (bufWrite (bufWrite (bufWrite data0 0 (stream 0)) 1 (stream 1)) 2 (stream 2)) =
        busyOutcome dev := by
      rw [hmode]
      exact receiveAux_bus_mismatch dev stream
        (CONTAINS_SENDER_INFO (stream 2)) (CONTAINS_ACK_REQUEST (stream 2)) hsh hr
        47 3 (stream 1)
        (compute_crc_8 (stream 2)
          (compute_crc_8 (stream 1) (compute_crc_8 (stream 0) 0)))
        (bufWrite (bufWrite (bufWrite data0 0 (stream 0)) 1 (stream 1)) 2 (stream 2))
        (by omega) (by omega) (by omega) hFv ⟨j, hj3, hj7, hjpl, hjm⟩
    rw [e3]
    rfl

/-- Stream of receive_byte results drawn from a list; past the end the
strategy is modelled as timing out with FAIL. -/
def streamOf (l : List Nat) : Nat → Nat := fun i => l.getD i FAIL

/-- The all-zero scratch buffer / bus id. -/
def zeros : Nat → Nat := fun _ => 0

/-- A PacketInfo whose fields are all zero, as after initialization. -/
def zeroInfo : PacketInfo :=
  { header := 0, receiver_id := 0, receiver_bus_id := zeros,
    sender_id := 0, sender_bus_id := zeros }

/-- A local (unshared) non-router device with id 7, default flags. -/
def devLocal7 : Device :=
  { device_id := 7, bus_id := zeros, shared := false, router := false,
    mode := HALF_DUPLEX, acknowledge := true, include_sender_info := false,
    auto_delete := true, last_packet_info := zeroInfo }

/-- Witness: C4_receive_address_filter applied to a concrete device
and frame whose first byte 9 matches neither id 7 nor BROADCAST. -/
theorem C4_receive_address_filter_witness :
    (receive devLocal7 (streamOf [9, 6, 0, 1, 1, 1]) zeros).ret = BUSY :=
  (C4_receive_address_filter devLocal7 (streamOf [9, 6, 0, 1, 1, 1]) zeros
    rfl (by decide)).1 (by refine ⟨?_, ?_, ?_⟩ <;> decide)

lemma writeBytes_read_lt (stream data : Nat → Nat) (i n j : Nat)
    (h : i ≤ j ∧ j < i + n) : writeBytes stream data i n j = stream j := by
  simp only [writeBytes]
  rw [if_pos h]

/-- C10: when receive() consumes a full frame whose rolling CRC is
nonzero, last_packet_info is left unchanged (get_packet_info is called
only on CRC success), so the shared-mode eligibility test gating the
NAK compares the device's bus id against the receiver bus id stored in
last_packet_info by a previously accepted packet, not against the
current frame's recipient bus id. -/
theorem C10_nak_gate_uses_stale_info (dev : Device) (stream data0 : Nat → Nat)
    (h0v : ¬(stream 0 = FAIL))
    (h0 : ¬(stream 0 ≠ dev.device_id ∧ stream 0 ≠ BROADCAST ∧ dev.router = false))
    (h1 : 4 < stream 1 ∧ stream 1 < PACKET_MAX_LENGTH)
    (h2v : ¬(stream 2 = FAIL))
    (h2 : ¬(CONTAINS_MODE_INFO (stream 2) ≠ dev.shared ∧ dev.router = false))
    (h3v : ∀ k, k < stream 1 → 3 ≤ k → ¬(stream k = FAIL))
    (h3 : ∀ k, k < stream 1 → 3 ≤ k →
      ¬(dev.shared = true ∧ CONTAINS_MODE_INFO (stream 2) = true ∧ dev.router = false ∧
        2 < k ∧ k < 7 ∧ dev.bus_id (k - 3) ≠ stream k))
    (hcrc : ¬(frameCRC stream = 0)) :
    (receive dev stream data0).info = dev.last_packet_info ∧
    (receive dev stream data0).ret = NAK ∧
    ((receive dev stream data0).response = some NAK ↔
      (CONTAINS_ACK_REQUEST (stream 2) = true ∧ stream 0 ≠ BROADCAST ∧
       dev.mode ≠ SIMPLEX ∧
       (dev.shared = false ∨ (dev.shared = true ∧ CONTAINS_MODE_INFO (stream 2) = true ∧
         bus_id_equality dev.last_packet_info.receiver_bus_id dev.bus_id = true)))) := by
  rw [receive_consumes dev stream data0 h0v h0 h1 h2v h2
    (fun k hk3 hklt => h3v k hklt hk3) (fun k hk3 hklt => h3 k hklt hk3)]
  simp only [receiveFinish]
  rw [if_neg hcrc]
  have hd0 : writeBytes stream data0 0 (stream 1) 0 = stream 0 :=
    writeBytes_read_lt stream data0 0 (stream 1) 0 ⟨by omega, by omega⟩
  refine ⟨rfl, rfl, ?_⟩
  rw [hd0]
  split
  · next hC => exact iff_of_true rfl hC
  · next hC => exact iff_of_false (fun h => Option.noConfusion h) hC

/-- C5 (amended): after receive() consumes a full frame, an ACK or NAK
response is transmitted via send_response iff the frame's ack-request
bit is set, the recipient id is not BROADCAST, the device's mode is not
SIMPLEX, and either the device is not shared, or the frame's shared bit
is set and the device's bus id equals last_packet_info.receiver_bus_id,
which is freshly parsed from the current frame when the CRC is valid
and is the value retained from the previous accepted packet when the
CRC is invalid. -/
theorem C5_response_eligibility (dev : Device) (stream data0 : Nat → Nat)
    (h0v : ¬(stream 0 = FAIL))
    (h0 : ¬(stream 0 ≠ dev.device_id ∧ stream 0 ≠ BROADCAST ∧ dev.router = false))
    (h1 : 4 < stream 1 ∧ stream 1 < PACKET_MAX_LENGTH)
    (h2v : ¬(stream 2 = FAIL))
    (h2 : ¬(CONTAINS_MODE_INFO (stream 2) ≠ dev.shared ∧ dev.router = false))
    (h3v : ∀ k, k < stream 1 → 3 ≤ k → ¬(stream k = FAIL))
    (h3 : ∀ k, k < stream 1 → 3 ≤ k →
      ¬(dev.shared = true ∧ CONTAINS_MODE_INFO (stream 2) = true ∧ dev.router = false ∧
        2 < k ∧ k < 7 ∧ dev.bus_id (k - 3) ≠ stream k)) :
    (receive dev stream data0).response ≠ none ↔
      (CONTAINS_ACK_REQUEST (stream 2) = true ∧ stream 0 ≠ BROADCAST ∧
       dev.mode ≠ SIMPLEX ∧
       (dev.shared = false ∨ (dev.shared = true ∧ CONTAINS_MODE_INFO (stream 2) = true ∧
         bus_id_equality
           (if frameCRC stream = 0 then
             (get_packet_info (writeBytes stream data0 0 (stream 1))
               dev.last_packet_info).receiver_bus_id
            else dev.last_packet_info.receiver_bus_id)
           dev.bus_id = true))) := by
  rw [receive_consumes dev stream data0 h0v h0 h1 h2v h2
    (fun k hk3 hklt => h3v k hklt hk3) (fun k hk3 hklt => h3 k hklt hk3)]
  simp only [receiveFinish]
  have hd0 : writeBytes stream data0 0 (stream 1) 0 = stream 0 :=
    writeBytes_read_lt stream data0 0 (stream 1) 0 ⟨by omega, by omega⟩
  by_cases hcrc : frameCRC stream = 0
  · rw [if_pos hcrc, if_pos hcrc, hd0]
    split
    · next hC => exact iff_of_true (fun h => Option.noConfusion h) hC
    · next hC => exact iff_of_false (fun h => h rfl) hC
  · rw [if_neg hcrc, if_neg hcrc, hd0]
    split
    · next hC => exact iff_of_true (fun h => Option.noConfusion h) hC
    · next hC => exact iff_of_false (fun h => h rfl) hC

/-- A shared non-router device with id 7 on bus (1,1,1,1) whose
last_packet_info still holds the all-zero receiver bus id. -/
def devShared7 : Device :=
  { device_id := 7, bus_id := fun _ => 1, shared := true, router := false,
    mode := HALF_DUPLEX, acknowledge := true, include_sender_info := false,
    auto_delete := true, last_packet_info := zeroInfo }

/-- Counterexample to C5 as stated: the frame [7,9,5,1,1,1,1,42,0] is
shared, requests an ack, is addressed to device 7 on exactly the
device's bus (1,1,1,1), the device's mode is not SIMPLEX — yet its CRC
is bad and no NAK is transmitted, because the gate compares the stale
last_packet_info.receiver_bus_id (0,0,0,0), not the frame's bus id. -/
theorem C5_counterexample :
    (receive devShared7 (streamOf [7, 9, 5, 1, 1, 1, 1, 42, 0]) zeros).response = none ∧
    (receive devShared7 (streamOf [7, 9, 5, 1, 1, 1, 1, 42, 0]) zeros).ret = NAK ∧
    CONTAINS_ACK_REQUEST (streamOf [7, 9, 5, 1, 1, 1, 1, 42, 0] 2) = true ∧
    streamOf [7, 9, 5, 1, 1, 1, 1, 42, 0] 0 ≠ BROADCAST ∧
    devShared7.mode ≠ SIMPLEX ∧
    devShared7.shared = true ∧
    (∀ k < 4, streamOf [7, 9, 5, 1, 1, 1, 1, 42, 0] (3 + k) = devShared7.bus_id k) := by
  decide

/-- Witness: C5_response_eligibility applied to a CRC-valid shared
frame addressed to devShared7, on which a response is transmitted. -/
theorem C5_response_eligibility_witness :
    (receive devShared7 (streamOf [7, 9, 5, 1, 1, 1, 1, 42, 135]) zeros).response ≠ none :=
  (C5_response_eligibility devShared7 (streamOf [7, 9, 5, 1, 1, 1, 1, 42, 135]) zeros
    (by decide) (by decide) (by decide) (by decide) (by decide) (by decide) (by decide)).mpr
    (by decide)

/-- Witness: C10_nak_gate_uses_stale_info applied to the bad-CRC shared
frame [7,9,5,1,1,1,1,42,0]: last_packet_info is unchanged. -/
theorem C10_nak_gate_uses_stale_info_witness :
    (receive devShared7 (streamOf [7, 9, 5, 1, 1, 1, 1, 42, 0]) zeros).info =
      devShared7.last_packet_info :=
  (C10_nak_gate_uses_stale_info devShared7 (streamOf [7, 9, 5, 1, 1, 1, 1, 42, 0]) zeros
    (by decide) (by decide) (by decide) (by decide) (by decide) (by decide) (by decide)
    (by decide)).1

/-- C2 (evaluation at the failing input): the CRC-valid local frame
[7,6,0,9,8,40] has length field data[1] = 6 and payload_offset 3, so
the specified payload length is 6 - 3 - 1 = 2; but receive() passes
data[3] - payload_offset - 1 = 9 - 3 - 1 = 5 to the handler. -/
theorem C2_handler_length_eval :
    (receive devLocal7 (streamOf [7, 6, 0, 9, 8, 40]) zeros).handler = some (3, 5) ∧
    (receive devLocal7 (streamOf [7, 6, 0, 9, 8, 40]) zeros).ret = ACK ∧
    streamOf [7, 6, 0, 9, 8, 40] 1 - 3 - 1 = 2 ∧ (5 : Nat) ≠ 2 := by
  decide

/-- What one call to send_string observably does: the uint16 return
value, whether the random collision delay was performed, and the bytes
handed to Strategy::send_byte. content = none models a null string
pointer; canStart models Strategy::can_start and response models
Strategy::receive_response. -/
structure SendOutcome where
  ret : Nat
  delayed : Bool
  sent : List Nat

/-- Transmit one frame (send_string): null check, carrier sense,
recipient id, length + 4, header, content bytes, CRC, then the
acknowledgement wait. The random delay (delayMicroseconds(random(0,
COLLISION_MAX_DELAY))) is recorded as the delayed flag; note the
source guards it with response != FAIL. -/
def send_string (dev : Device) (canStart : Bool) (response : Nat) (id : Nat)
    (content : Option (List Nat)) (custom_header : Nat) : SendOutcome :=
  match content with
  | none => ⟨FAIL, false, []⟩
  | some s =>
    if dev.mode ≠ SIMPLEX ∧ canStart = false then ⟨BUSY, false, []⟩
    else
      let lenByte := (s.length + 4) % 256
      let crc := crc8 ([id, lenByte, custom_header] ++ s)
      let sent := [id, lenByte, custom_header] ++ s ++ [crc]
      if dev.acknowledge = false ∨ id = BROADCAST ∨ dev.mode = SIMPLEX then
        ⟨ACK, false, sent⟩
      else if response = ACK then ⟨ACK, false, sent⟩
      else
        let d := if response = FAIL then false else true
        if response = NAK then ⟨NAK, d, sent⟩ else ⟨FAIL, d, sent⟩

/-- Counterexample to C3 as stated: with an acknowledgement awaited
(acknowledge on, non-broadcast id, half-duplex) and the strategy
responding FAIL, send_string returns FAIL but performs no random
delay, because the delay is guarded by response != FAIL. -/
theorem C3_counterexample :
    (send_string devLocal7 true FAIL 5 (some [1]) 4).ret = FAIL ∧
    (send_string devLocal7 true FAIL 5 (some [1]) 4).delayed = false ∧
    devLocal7.acknowledge = true ∧ (5 : Nat) ≠ BROADCAST ∧
    devLocal7.mode ≠ SIMPLEX := by
  decide

/-- C3 (amended): in send_string, when an acknowledgement is awaited
and the strategy's response is not ACK: a NAK response causes the
uniform random 0..COLLISION_MAX_DELAY-1 microsecond delay followed by
return NAK; a FAIL response causes return FAIL with no delay; every
other response causes the same random delay followed by return FAIL. -/
theorem C3_send_string_response (dev : Device) (canStart : Bool) (response id : Nat)
    (s : List Nat) (custom_header : Nat)
    (hack : dev.acknowledge = true) (hid : id ≠ BROADCAST) (hmode : dev.mode ≠ SIMPLEX)
    (hcs : canStart = true) (hresp : response ≠ ACK) :
    (send_string dev canStart response id (some s) custom_header).ret =
      (if response = NAK then NAK else FAIL) ∧
    (send_string dev canStart response id (some s) custom_header).delayed =
      (if response = FAIL then false else true) := by
  simp only [send_string]
  rw [if_neg (fun h => absurd h.2 (by rw [hcs]; decide)),
    if_neg (fun h => h.elim
      (fun x => by rw [hack] at x; exact Bool.noConfusion x)
      (fun h2 => h2.elim hid hmode)),
    if_neg hresp]
  refine ⟨?_, ?_⟩ <;> split <;> rfl

/-- Witness: C3_send_string_response at a garbage response 99: the
delay happens and FAIL is returned. -/
theorem C3_send_string_response_witness :
    (send_string devLocal7 true 99 5 (some [1]) 4).ret = FAIL ∧
    (send_string devLocal7 true 99 5 (some [1]) 4).delayed = true := by
  have h := C3_send_string_response devLocal7 true 99 5 [1] 4 rfl (by decide)
    (by decide) rfl (by decide)
  exact ⟨h.1.trans (by decide), h.2.trans (by decide)⟩

/-- One slot of the transmit queue, mirroring struct PJON_Packet.
content = none models a freed buffer. -/
structure PJON_Packet where
  attempts : Nat
  header : Nat
  device_id : Nat
  content : Option (List Nat)
  length : Nat
  registration : Nat
  state : Nat
  timing : Nat

/-- A zeroed slot. -/
def emptyPacket : PJON_Packet := ⟨0, 0, 0, none, 0, 0, 0, 0⟩

/-- The byte string dispatch composes: recipient bus id (shared),
sender bus id and sender id (shared + sender info), or just the sender
id (local + sender info), followed by the user payload. The
commented-out str[4] = id write of the source is absent. -/
def composeContent (dev : Device) (b_id : Nat → Nat) (packet : List Nat) : List Nat :=
  (if dev.shared then
    (List.range 4).map b_id ++
      (if dev.include_sender_info then (List.range 4).map dev.bus_id ++ [dev.device_id]
       else [])
   else
    (if dev.include_sender_info then [dev.device_id] else [])) ++ packet

/-- Index of the first FREE (state = 0) slot, mirroring the slot scan
loop of dispatch. -/
def findFree : List PJON_Packet → Nat → Option Nat
  | [], _ => none
  | p :: rest, i => if p.state = 0 then some i else findFree rest (i+1)

/-- What one call to dispatch observably does: the uint16 return value
(slot index or FAIL), the error-callback invocations (code, data) in
order, and the queue afterwards. -/
structure DispatchOutcome where
  ret : Nat
  errors : List (Nat × Nat)
  queue : List PJON_Packet

/-- Enqueue one packet (dispatch). new_length is a uint8_t in the
source, hence the % 256. malloc is modelled as always succeeding (the
MEMORY_FULL path needs an out-of-memory heap, which the embedding does
not model). The filled slot keeps its previous attempts value, exactly
as the source never writes packets[i].attempts in dispatch. -/
def dispatch (dev : Device) (queue : List PJON_Packet) (id : Nat) (b_id : Nat → Nat)
    (packet : List Nat) (length : Nat) (timing now custom_header : Nat) : DispatchOutcome :=
  let new_length := (length +
    (if dev.shared then (if dev.include_sender_info then 9 else 4)
     else (if dev.include_sender_info then 1 else 0))) % 256
  let header := if custom_header = 0 then
      (if dev.shared then MODE_BIT else 0) |||
      (if dev.include_sender_info then SENDER_INFO_BIT else 0) |||
      (if dev.acknowledge then ACK_REQUEST_BIT else 0)
    else custom_header
  if PACKET_MAX_LENGTH ≤ new_length then ⟨FAIL, [(CONTENT_TOO_LONG, new_length)], queue⟩
  else
    let str := composeContent dev b_id packet
    match findFree queue 0 with
    | some i =>
      ⟨i, [], queue.set i
        { queue.getD i emptyPacket with
            header := header, content := some str, device_id := id,
            length := new_length, state := TO_BE_SENT, registration := now,
            timing := timing }⟩
    | none => ⟨FAIL, [(PACKETS_BUFFER_FULL, MAX_PACKETS)], queue⟩

lemma findFree_none : ∀ (q : List PJON_Packet) (i : Nat),
    (∀ p ∈ q, p.state ≠ 0) → findFree q i = none
  | [], _, _ => rfl
  | p :: rest, i, h => by
    simp only [findFree]
    rw [if_neg (h p (List.mem_cons_self p rest))]
    exact findFree_none rest (i+1) (fun x hx => h x (List.mem_cons_of_mem p hx))

/-- C8: when every one of the MAX_PACKETS queue slots is non-FREE,
dispatch with an in-range length returns FAIL, invokes the error
callback exactly once with code PACKETS_BUFFER_FULL and data
MAX_PACKETS, and leaves the queue unchanged. -/
theorem C8_buffer_full (dev : Device) (queue : List PJON_Packet) (id : Nat)
    (b_id : Nat → Nat) (packet : List Nat) (length timing now custom_header : Nat)
    (hcap : queue.length = MAX_PACKETS)
    (hfull : ∀ p ∈ queue, p.state ≠ 0)
    (hlen : (length +
      (if dev.shared then (if dev.include_sender_info then 9 else 4)
       else (if dev.include_sender_info then 1 else 0))) % 256 < PACKET_MAX_LENGTH) :
    dispatch dev queue id b_id packet length timing now custom_header =
      ⟨FAIL, [(PACKETS_BUFFER_FULL, MAX_PACKETS)], queue⟩ := by
  simp only [dispatch]
  rw [if_neg (not_le.mpr hlen), findFree_none queue 0 hfull]

/-- A full queue of MAX_PACKETS pending slots. -/
def fullQueue : List PJON_Packet := List.replicate 10 ⟨0, 4, 9, some [1], 1, 0, 74, 0⟩

/-- Witness: C8_buffer_full on a concrete full queue. -/
theorem C8_buffer_full_witness :
    dispatch devLocal7 fullQueue 3 zeros [1] 1 0 0 0 =
      ⟨FAIL, [(PACKETS_BUFFER_FULL, MAX_PACKETS)], fullQueue⟩ :=
  C8_buffer_full devLocal7 fullQueue 3 zeros [1] 1 0 0 0
    (by decide) (by decide) (by decide)

/-- Unsigned 32-bit subtraction (uint32_t)(a - b), as in
(uint32_t)(micros() - registration). -/
def usub32 (a b : Nat) : Nat :=
  (a % 4294967296 + 4294967296 - b % 4294967296) % 4294967296

/-- What one iteration of the update() loop does to one slot: the slot
afterwards, whether send_string was invoked for it, the error-callback
invocations, and the device id afterwards (update can adopt a new one
in the ACQUIRE_ID branch). -/
structure UpdateSlotOutcome where
  packet : PJON_Packet
  invoked : Bool
  errors : List (Nat × Nat)
  device_id : Nat

/-- Release a slot (remove): free the content, zero attempts,
device_id, length, registration and state; header and timing are left
untouched, exactly as in the source. -/
def removeSlot (p : PJON_Packet) : PJON_Packet :=
  { p with
    content := none, attempts := 0, device_id := 0, length := 0,
    registration := 0, state := 0 }

/-- The body of the update() loop for one slot. now models micros();
sendResult models what send_string returns for this slot. pow(attempts,
3) is modelled as the exact cube: for attempts ≤ 255 the cube is below
2^24 and exactly representable in the source's floating type. The
attempts counter is a uint8_t, hence the % 256 on increment. -/
def updateSlot (dev : Device) (p : PJON_Packet) (now sendResult : Nat) : UpdateSlotOutcome :=
  if p.state = 0 then ⟨p, false, [], dev.device_id⟩
  else if ¬(p.timing + p.attempts ^ 3 < usub32 now p.registration) then
    ⟨p, false, [], dev.device_id⟩
  else
    let q := { p with state := sendResult }
    if q.state = ACK then
      if q.timing = 0 then
        if dev.auto_delete then ⟨removeSlot q, true, [], dev.device_id⟩
        else ⟨q, true, [], dev.device_id⟩
      else ⟨{ q with attempts := 0, registration := now, state := TO_BE_SENT },
        true, [], dev.device_id⟩
    else if q.state = FAIL then
      let q2 := { q with attempts := (q.attempts + 1) % 256 }
      if MAX_ATTEMPTS < q2.attempts then
        if (q2.content.getD []).getD 0 0 = ACQUIRE_ID then
          ⟨removeSlot q2, true, [], q2.device_id⟩
        else
          if q2.timing = 0 then
            if dev.auto_delete then
              ⟨removeSlot q2, true, [(CONNECTION_LOST, q2.device_id)], dev.device_id⟩
            else ⟨q2, true, [(CONNECTION_LOST, q2.device_id)], dev.device_id⟩
          else ⟨{ q2 with attempts := 0, registration := now, state := TO_BE_SENT },
            true, [(CONNECTION_LOST, q2.device_id)], dev.device_id⟩
      else ⟨q2, true, [], dev.device_id⟩
    else ⟨q, true, [], dev.device_id⟩

/-- C9: update() invokes the frame transmitter for a slot only if the
elapsed time since the slot's registration exceeds timing + attempts³
microseconds; a retry never occurs earlier. -/
theorem C9_cubic_backoff (dev : Device) (p : PJON_Packet) (now sendResult : Nat) :
    (updateSlot dev p now sendResult).invoked = true →
      p.timing + p.attempts ^ 3 < usub32 now p.registration := by
  intro h
  by_cases h0 : p.state = 0
  · rw [updateSlot, if_pos h0] at h
    exact Bool.noConfusion h
  · by_cases h1 : p.timing + p.attempts ^ 3 < usub32 now p.registration
    · exact h1
    · rw [updateSlot, if_neg h0, if_pos h1] at h
      exact Bool.noConfusion h

/-- Witness: C9_cubic_backoff on a slot that does get sent. -/
theorem C9_cubic_backoff_witness :
    (⟨0, 4, 9, some [1], 1, 0, 74, 0⟩ : PJON_Packet).timing +
      (⟨0, 4, 9, some [1], 1, 0, 74, 0⟩ : PJON_Packet).attempts ^ 3 <
      usub32 1 (⟨0, 4, 9, some [1], 1, 0, 74, 0⟩ : PJON_Packet).registration :=
  C9_cubic_backoff devLocal7 ⟨0, 4, 9, some [1], 1, 0, 74, 0⟩ 1 ACK (by decide)

/-- C7: after a send attempt in update() returns ACK: a slot with
timing > 0 has attempts reset to 0, registration refreshed, and state
set back to TO_BE_SENT (not removed); a slot with timing = 0 is
removed (state becomes FREE, content released) when auto_delete is
true, and is left in state ACK when auto_delete is false. -/
theorem C7_ack_outcome (dev : Device) (p : PJON_Packet) (now : Nat)
    (hstate : ¬(p.state = 0))
    (helapsed : p.timing + p.attempts ^ 3 < usub32 now p.registration) :
    (0 < p.timing →
      (updateSlot dev p now ACK).packet =
        { p with attempts := 0, registration := now, state := TO_BE_SENT }) ∧
    (p.timing = 0 → dev.auto_delete = true →
      (updateSlot dev p now ACK).packet.state = 0 ∧
      (updateSlot dev p now ACK).packet.content = none) ∧
    (p.timing = 0 → dev.auto_delete = false →
      (updateSlot dev p now ACK).packet = { p with state := ACK }) := by
  refine ⟨?_, ?_, ?_⟩
  · intro ht
    rw [updateSlot, if_neg hstate, if_neg (not_not_intro helapsed)]
    rw [if_pos (show ACK = ACK from rfl),
      if_neg (fun he => absurd (show p.timing = 0 from he) (by omega))]
  · intro ht hauto
    rw [updateSlot, if_neg hstate, if_neg (not_not_intro helapsed)]
    rw [if_pos (show ACK = ACK from rfl), if_pos (show p.timing = 0 from ht),
      if_pos hauto]
    exact ⟨rfl, rfl⟩
  · intro ht hauto
    rw [updateSlot, if_neg hstate, if_neg (not_not_intro helapsed)]
    rw [if_pos (show ACK = ACK from rfl), if_pos (show p.timing = 0 from ht),
      if_neg (fun he => by rw [hauto] at he; exact Bool.noConfusion he)]

/-- Witness: C7_ack_outcome on a concrete cyclic slot. -/
theorem C7_ack_outcome_witness :
    (updateSlot devLocal7 ⟨3, 4, 9, some [1], 1, 5, 74, 1000⟩ 1033 ACK).packet =
      ⟨0, 4, 9, some [1], 1, 1033, 74, 1000⟩ :=
  (C7_ack_outcome devLocal7 ⟨3, 4, 9, some [1], 1, 5, 74, 1000⟩ 1033
    (by decide) (by decide)).1 (by decide)

/-- A shared device still awaiting an id (device_id NOT_ASSIGNED) on
bus (1,1,1,1), as when acquire_id() probes on a shared bus. -/
def devAcq : Device :=
  { device_id := NOT_ASSIGNED, bus_id := fun _ => 1, shared := true, router := false,
    mode := HALF_DUPLEX, acknowledge := true, include_sender_info := false,
    auto_delete := true, last_packet_info := zeroInfo }

/-- Counterexample to C6 as stated: on a shared device, dispatch
prepends the recipient bus id to the content buffer, so the probe slot
built from the one-byte ACQUIRE_ID payload [63] has content
[1,1,1,1,63] — the payload begins with ACQUIRE_ID, but content[0] is a
bus-id byte. When that slot exhausts its attempts with FAIL, update()
tests content[0] (= 1, not 63), emits CONNECTION_LOST with the
destination id 42 and does not adopt it: the device id stays
NOT_ASSIGNED. -/
theorem C6_counterexample :
    ((dispatch devAcq [emptyPacket] 42 devAcq.bus_id [63] 1 0 0 0).queue.getD 0
        emptyPacket).content = some [1, 1, 1, 1, 63] ∧
    ((dispatch devAcq [emptyPacket] 42 devAcq.bus_id [63] 1 0 0 0).queue.getD 0
        emptyPacket).device_id = 42 ∧
    (updateSlot devAcq ⟨125, 5, 42, some [1, 1, 1, 1, 63], 5, 0, 74, 0⟩ 1953126 FAIL).errors =
      [(CONNECTION_LOST, 42)] ∧
    (updateSlot devAcq ⟨125, 5, 42, some [1, 1, 1, 1, 63], 5, 0, 74, 0⟩ 1953126 FAIL).device_id =
      NOT_ASSIGNED ∧
    NOT_ASSIGNED ≠ 42 := by
  decide

/-- C6 (amended): when a send attempt in update() returns FAIL and the
slot's attempts counter then exceeds MAX_ATTEMPTS: if the slot's
content buffer — the payload plus any prepended addressing bytes —
begins with the ACQUIRE_ID symbol, the device adopts the slot's
destination id as its own device id and the slot is removed, without
invoking the error callback; otherwise CONNECTION_LOST is emitted with
the destination id. -/
theorem C6_retry_exhaustion (dev : Device) (p : PJON_Packet) (now : Nat)
    (hstate : ¬(p.state = 0))
    (helapsed : p.timing + p.attempts ^ 3 < usub32 now p.registration)
    (hmax : MAX_ATTEMPTS < (p.attempts + 1) % 256) :
    ((p.content.getD []).getD 0 0 = ACQUIRE_ID →
      (updateSlot dev p now FAIL).device_id = p.device_id ∧
      (updateSlot dev p now FAIL).packet.state = 0 ∧
      (updateSlot dev p now FAIL).packet.content = none ∧
      (updateSlot dev p now FAIL).errors = []) ∧
    (¬((p.content.getD []).getD 0 0 = ACQUIRE_ID) →
      (updateSlot dev p now FAIL).errors = [(CONNECTION_LOST, p.device_id)]) := by
  constructor
  · intro hacq
    rw [updateSlot, if_neg hstate, if_neg (not_not_intro helapsed)]
    rw [if_neg (fun he => absurd (show FAIL = ACK from he) (by decide)),
      if_pos (show FAIL = FAIL from rfl),
      if_pos (show MAX_ATTEMPTS < (p.attempts + 1) % 256 from hmax),
      if_pos (show (p.content.getD []).getD 0 0 = ACQUIRE_ID from hacq)]
    exact ⟨rfl, rfl, rfl, rfl⟩
  · intro hacq
    rw [updateSlot, if_neg hstate, if_neg (not_not_intro helapsed)]
    rw [if_neg (fun he => absurd (show FAIL = ACK from he) (by decide)),
      if_pos (show FAIL = FAIL from rfl),
      if_pos (show MAX_ATTEMPTS < (p.attempts + 1) % 256 from hmax),
      if_neg (fun he => hacq (show (p.content.getD []).getD 0 0 = ACQUIRE_ID from he))]
    split
    · split <;> rfl
    · rfl

/-- Witness: C6_retry_exhaustion on a concrete exhausted ACQUIRE_ID
probe slot addressed to id 42: the device adopts id 42. -/
theorem C6_retry_exhaustion_witness :
    (updateSlot devLocal7 ⟨125, 4, 42, some [63], 1, 0, 74, 0⟩ 1953126 FAIL).device_id = 42 ∧
    (updateSlot devLocal7 ⟨125, 4, 42, some [63], 1, 0, 74, 0⟩ 1953126 FAIL).packet.state = 0 ∧
    (updateSlot devLocal7 ⟨125, 4, 42, some [63], 1, 0, 74, 0⟩ 1953126 FAIL).packet.content = none ∧
    (updateSlot devLocal7 ⟨125, 4, 42, some [63], 1, 0, 74, 0⟩ 1953126 FAIL).errors = [] :=
  (C6_retry_exhaustion devLocal7 ⟨125, 4, 42, some [63], 1, 0, 74, 0⟩ 1953126
    (by decide) (by decide) (by decide)).1 (by decide)

end PJON
